import Mathlib

/-!
Shallow embedding of the `hydrano` Python client library (Hydra Head node
client) for checking its natural-language specification.

Embedded source files:
* `src/hydrano/hydra_connection.py` — the Session (`HydraConnection`):
  WebSocket URL derivation, `connect`, `send` (bounded retry),
  `disconnect`, `process_status`, `_on_message`.
* `src/hydrano/hydra_provider.py` — the Provider (`HydraProvider`):
  `connect` guard, `get`, `subscribe_snapshot_utxo`.
* `examples/instances/hydra_instance.py` — the repository's only
  `submitTx` implementation (one-shot correlation of `TxValid` /
  `TxInvalid` events with a submitted CBOR payload).
* `src/hydrano/types/hydra_assets.py` — `hydra_assets`, `to_assets`.
* `src/hydrano/types/hydra_utxos.py` — `HydraUTxO`, `to_utxo`.

Python `dict`s are embedded as insertion-ordered association lists with
in-place update; fallible code returns `Except`; machine integers are
`Int`/`Nat` (Python integers are unbounded, so no wraparound modelling is
needed); wall-clock time in `send` is modelled in whole seconds.
-/

namespace Hydrano

/-- Python-style association-list lookup (`d[k]` / `d.get(k)`): first
binding wins; by construction our updates keep keys unique. -/
def lookupA {α : Type} : List (String × α) → String → Option α
  | [], _ => none
  | (k', v') :: rest, k => if k' = k then some v' else lookupA rest k

/-- `d.get(k, dflt)` of a Python dict. -/
def getDA {α : Type} (m : List (String × α)) (k : String) (dflt : α) : α :=
  (lookupA m k).getD dflt

/-- `d[k] = v` on a Python dict: updates the binding in place when the key
is present (insertion order preserved), appends it otherwise. -/
def updateA {α : Type} : List (String × α) → String → α → List (String × α)
  | [], k, v => [(k, v)]
  | (k', v') :: rest, k, v =>
    if k' = k then (k, v) :: rest else (k', v') :: updateA rest k v

/-- Python `http_url.replace("http", "ws")` from
`HydraConnection.__init__`: replaces every non-overlapping occurrence of
the substring `"http"` by `"ws"`, left to right. -/
def pyReplaceHttpWs : List Char → List Char
  | 'h' :: 't' :: 't' :: 'p' :: rest => 'w' :: 's' :: pyReplaceHttpWs rest
  | c :: rest => c :: pyReplaceHttpWs rest
  | [] => []

/-- Whether the substring `"http"` occurs anywhere in the character list. -/
def containsHttp : List Char → Bool
  | 'h' :: 't' :: 't' :: 'p' :: _ => true
  | _ :: rest => containsHttp rest
  | [] => false

/-- The WebSocket URL computed by `HydraConnection.__init__`:
`ws_url = ws_url if ws_url else http_url.replace("http", "ws")`, then
`f"{ws_url}/?{history_param}{address_param}"` with
`history_param = f"history={'yes' if history else 'no'}"` and
`address_param = f"&address={address}" if address else ""`.
Python truthiness: an empty-string `ws_url` or `address` counts as absent. -/
def websocketUrl (httpUrl : String) (history : Bool) (address : Option String)
    (wsUrl : Option String) : String :=
  let derived := String.mk (pyReplaceHttpWs httpUrl.toList)
  let ws := match wsUrl with
    | some w => if w = "" then derived else w
    | none => derived
  let historyParam := "history=" ++ (if history then "yes" else "no")
  let addressParam := match address with
    | some a => if a = "" then "" else "&address=" ++ a
    | none => ""
  ws ++ "/?" ++ historyParam ++ addressParam

/-- Modelled from the spec: the duplex endpoint URL "derived by replacing
the HTTP scheme of the base URL with the duplex-transport scheme" — i.e.
only a leading `"http"` is rewritten to `"ws"`, the rest of the URL is
kept verbatim. Used to compare the spec's wording with the code's
`str.replace`-based derivation. -/
def specSchemeReplace (u : String) : String :=
  match u.toList with
  | 'h' :: 't' :: 't' :: 'p' :: rest => String.mk ('w' :: 's' :: rest)
  | _ => u

/-- Outcome of `HydraConnection.send`: either the payload was handed to the
open transport at elapsed second `t`, or the retry window was exhausted and
the failure was reported by printing (no exception escapes `send`). -/
inductive SendResult where
  | sent (t : Nat)
  | reportedFailure (t : Nat)
  deriving DecidableEq, Repr

/-- The retry loop of `HydraConnection.send`:
`while not send_success and (time.time() - start_time) < 5:` with one
`send_data()` attempt per iteration followed by `time.sleep(1)`.
`conn t` says whether the transport is open at elapsed second `t`. -/
def sendLoop (conn : Nat → Bool) (t : Nat) : SendResult :=
  if t < 5 then
    if conn t then .sent t else sendLoop conn (t + 1)
  else .reportedFailure t
termination_by 5 - t
decreasing_by omega

/-- `HydraConnection.send`: one immediate `send_data()` attempt, then the
bounded retry loop; on exhaustion the failure is printed, not raised. -/
def send (conn : Nat → Bool) : SendResult :=
  if conn 0 then .sent 0 else sendLoop conn 0

/-- State of a `HydraConnection` (the Session). `websocket` holds the id of
the currently owned `WebSocketApp`, `nextTransportId`/`opened` are ghost
fields counting the transports created so far. -/
structure HCState where
  websocket : Option Nat
  status : String
  connected : Bool
  nextTransportId : Nat
  opened : Nat
  deriving DecidableEq, Repr

/-- `HydraConnection.__init__`: starts idle, disconnected, no transport. -/
def HCState.init : HCState :=
  { websocket := none, status := "IDLE", connected := false,
    nextTransportId := 0, opened := 0 }

/-- `HydraConnection.connect`: unconditionally creates a fresh
`WebSocketApp` and sets the status to `"CONNECTING"` — the method has no
status guard of any kind. -/
def HydraConnection.connect (s : HCState) : HCState :=
  { s with websocket := some s.nextTransportId,
           nextTransportId := s.nextTransportId + 1,
           opened := s.opened + 1,
           status := "CONNECTING" }

/-- `HydraConnection.disconnect`: no-op when already `"IDLE"`, otherwise
closes the socket (when open) and returns to `"IDLE"`, not connected. -/
def HydraConnection.disconnect (s : HCState) : HCState :=
  if s.status = "IDLE" then s
  else { s with status := "IDLE", connected := false }

/-- `HydraConnection._on_open`: mark connected, status `"CONNECTED"`. -/
def HydraConnection.onOpen (s : HCState) : HCState :=
  { s with connected := true, status := "CONNECTED" }

/-- The `transaction` object embedded in `TxValid`/`TxInvalid` frames
(`transaction.cborHex`, `transaction.txId`). -/
structure Tx where
  cborHex : String
  txId : String
  deriving DecidableEq, Repr

/-- A decoded inbound frame. `transaction` is absent on frames that carry
no `transaction` member (accessing it in Python raises `AttributeError`);
`validationError` likewise. -/
structure Msg where
  tag : String
  transaction : Option Tx
  validationError : Option String
  deriving DecidableEq, Repr

/-- Modelled from the spec: the Status Model classifier `hydra_status`
(imported in `hydra_connection.py` from `hydrano.types`, whose module is
missing from the repository). "Contract: `classify(message) ->
Option<HeadStatus>` — maps an inbound message's tag to the status it
implies, or nothing if the tag carries no status implication"; head
lifecycle states per the spec's `HeadStatus` enumeration. -/
def hydra_status (m : Msg) : Option String :=
  if m.tag = "HeadIsInitializing" then some "INITIALIZING"
  else if m.tag = "HeadIsOpen" then some "OPEN"
  else if m.tag = "HeadIsClosed" then some "CLOSED"
  else if m.tag = "ReadyToFanout" then some "FANOUT_POSSIBLE"
  else if m.tag = "HeadIsFinalized" then some "FINAL"
  else none

/-- Events published on the `pyee` emitter by the Session: the generic
message channel (`"onmessage"`) and the status channel
(`"onstatuschange"`). -/
inductive HydraEvent where
  | onmessage (m : Msg)
  | onstatuschange (s : String)
  deriving DecidableEq, Repr

/-- `HydraConnection.process_status`: `status = hydra_status(message);
if status: self._status = status; emit("onstatuschange", status)`.
Python truthiness of `if status:` — `None` and `""` are both falsy.
Returns the new `_status` and the list of emitted events. -/
def process_status (status : String) (m : Msg) : String × List HydraEvent :=
  match hydra_status m with
  | some s => if s = "" then (status, []) else (s, [.onstatuschange s])
  | none => (status, [])

/-- `HydraConnection._on_message`: decode the frame (`json.loads`; a
`JSONDecodeError` is printed and the frame dropped — modelled as the
`none` input), emit `"onmessage"` with the decoded data, then run
`process_status`. Returns the new `_status` and the emitted events in
emission order. -/
def on_message (status : String) (decoded : Option Msg) :
    String × List HydraEvent :=
  match decoded with
  | none => (status, [])
  | some m =>
    let ps := process_status status m
    (ps.1, .onmessage m :: ps.2)

/-- The `asyncio` future created by `submitTx`
(`examples/instances/hydra_instance.py`): pending, resolved with a
transaction id, or failed with the stringified validation error. -/
inductive FutureState where
  | pending
  | resolved (txId : String)
  | failed (validationError : String)
  deriving DecidableEq, Repr

/-- Python `str(message.validationError)`: `str(None)` is `"None"`. -/
def pyStr : Option String → String
  | some e => e
  | none => "None"

/-- The `on_message` closure registered by `submitTx`
(`examples/instances/hydra_instance.py`), as a step on the future's state:
`if message.tag == "TxValid" and message.transaction.cborHex == tx:
future.set_result(message.transaction.txId)` and symmetrically
`set_exception` for `TxInvalid`. A frame without a `transaction` member
makes the attribute access raise inside the handler, leaving the future
untouched; `set_result`/`set_exception` on an already-completed future
raise `InvalidStateError`, likewise leaving it unchanged. -/
def submitTxHandler (tx : String) (m : Msg) (fut : FutureState) : FutureState :=
  match fut with
  | .pending =>
    if m.tag = "TxValid" then
      match m.transaction with
      | some t => if t.cborHex = tx then .resolved t.txId else .pending
      | none => .pending
    else if m.tag = "TxInvalid" then
      match m.transaction with
      | some t => if t.cborHex = tx then .failed (pyStr m.validationError)
                  else .pending
      | none => .pending
    else .pending
  | s => s

/-- The observable state of one `submitTx` call: the handlers registered
on the message channel (identified by name), and the call's future. -/
structure SubmitState where
  subscribers : List String
  fut : FutureState
  deriving DecidableEq, Repr

/-- One `submitTx` call followed by a stream of inbound frames:
`self.onMessage(on_message)` registers the closure on the message channel
(a `pyee` `on` appends the handler; nothing in `submitTx` — or anywhere
else in the repository — ever removes it), then each delivered frame runs
the handler against the future. -/
def submitTxRun (tx hname : String) (events : List Msg) : SubmitState :=
  let st0 : SubmitState := { subscribers := [hname], fut := .pending }
  events.foldl (fun st m => { st with fut := submitTxHandler tx m st.fut }) st0

/-- JSON values, as produced by `response.json()` / `json.loads`. -/
inductive Json where
  | null
  | str (s : String)
  | num (n : Int)
  | obj (fields : List (String × Json))
  | arr (elems : List Json)

/-- Python exceptions surfaced by the embedded code. `requestFailure` is
the spec's `RequestFailure` (carrying the response body when present);
`valueError`/`keyError`/`attributeError` are the builtin exceptions the
type-conversion code raises. -/
inductive PyError where
  | requestFailure (body : Option Json)
  | valueError (msg : String)
  | keyError (k : String)
  | attributeError
  | typeError

/-- What `parse_error` is applied to in `HydraProvider.get`/`post`: the
decoded JSON body of a non-2xx response, a previously raised exception,
or a network-level failure with no response. -/
inductive ErrSource where
  | jsonBody (j : Json)
  | exc (e : PyError)
  | netFailure

/-- Modelled from the spec: `parse_error` (imported in
`hydra_provider.py` from `hydrano.utils.parse_error`, whose module is
missing from the repository). Per the spec's error taxonomy it normalizes
a non-2xx/202 REST response or a network-level failure into one
`RequestFailure`, with "the response body, if present, attached
verbatim"; normalizing an already-normalized error keeps its body. -/
def parse_error : ErrSource → PyError
  | .jsonBody j => .requestFailure (some j)
  | .exc (.requestFailure b) => .requestFailure b
  | .exc _ => .requestFailure none
  | .netFailure => .requestFailure none

/-- The outcome of the underlying `requests` call in `get`: an HTTP
response with a status code and JSON body, or a network-level exception. -/
inductive HttpResponse where
  | response (status : Nat) (body : Json)
  | networkError

/-- `HydraProvider.get`: returns `response.json()` when the status code is
200 or 202, otherwise does `raise parse_error(response.json())`, which the
enclosing `except Exception` re-wraps as `raise parse_error(error)`; a
network-level exception from `session.get` is likewise wrapped. -/
def get (resp : HttpResponse) : Except PyError Json :=
  match resp with
  | .networkError => .error (parse_error .netFailure)
  | .response st body =>
    if st = 200 ∨ st = 202 then .ok body
    else .error (parse_error (.exc (parse_error (.jsonBody body))))

/-- Modelled from the spec: the `HydraStatus` head-lifecycle enumeration
(imported in `hydra_provider.py` from `hydrano.types.hydra_status`, whose
module is missing from the repository); members per the spec's
`HeadStatus` list. Only `DISCONNECTED` and `CONNECTED` are used by the
Provider code. -/
inductive HydraStatus where
  | DISCONNECTED
  | IDLE
  | CONNECTING
  | CONNECTED
  | INITIALIZING
  | OPEN
  | CLOSED
  | FANOUT_POSSIBLE
  | FINAL
  deriving DecidableEq, Repr

/-- State of a `HydraProvider`: its own `_status` plus the owned
`HydraConnection`. -/
structure HPState where
  status : HydraStatus
  connection : HCState
  deriving DecidableEq, Repr

/-- `HydraProvider.__init__`: `_status = HydraStatus.DISCONNECTED` and a
fresh `HydraConnection`. -/
def HPState.init : HPState :=
  { status := .DISCONNECTED, connection := HCState.init }

/-- `HydraProvider.connect`: `if self._status != HydraStatus.DISCONNECTED:
return`, otherwise `self._connection.connect()` and
`self._status = HydraStatus.CONNECTED`. -/
def HydraProvider.connect (p : HPState) : HPState :=
  if p.status ≠ HydraStatus.DISCONNECTED then p
  else { status := .CONNECTED, connection := HydraConnection.connect p.connection }

/-- A `hydraAssets` dictionary (`Dict[str, int]`, unit to quantity),
insertion-ordered. -/
def HydraAssets : Type := List (String × Int)

/-- One input triple of `hydra_assets`: `(policy_id, asset_name,
quantity)`. `asset_name` is the `AssetName`'s byte string, embedded as the
decoded string (`asset_name.decode("utf-8")`, identity in the model);
Python truthiness of the empty `AssetName` coincides with `= ""`. -/
def AssetTriple : Type := String × String × Int

/-- The unit string computed inside the `hydra_assets` loop:
`"lovelace" if not policy_id and not asset_name_str else
f"{policy_id}{asset_name_str}"`. -/
def unitOf (policy_id asset_name : String) : String :=
  if policy_id = "" ∧ asset_name = "" then "lovelace"
  else policy_id ++ asset_name

/-- The accumulation loop of `hydra_assets`: raises `ValueError` at the
first negative quantity, otherwise does
`result[unit] = result.get(unit, 0) + quantity`. -/
def hydraAssetsLoop (acc : List (String × Int)) :
    List AssetTriple → Except PyError (List (String × Int))
  | [] => .ok acc
  | (p, n, q) :: rest =>
    if q < 0 then
      .error (.valueError ("Negative quantity for asset " ++ p ++ n ++ ": " ++ toString q))
    else
      hydraAssetsLoop (updateA acc (unitOf p n) (getDA acc (unitOf p n) 0 + q)) rest

/-- `hydra_assets` (`src/hydrano/types/hydra_assets.py`): starts from
`{"lovelace": 0}`, accumulates, then removes zero quantities
(`{k: v for k, v in result.items() if v != 0}`). -/
def hydra_assets (assets : List AssetTriple) : Except PyError (List (String × Int)) :=
  (hydraAssetsLoop [("lovelace", 0)] assets).map
    (fun m => m.filter (fun kv => kv.2 ≠ 0))

/-- ASCII hexadecimal digit. -/
def isHexDigitC (c : Char) : Bool :=
  c.isDigit || ('a' ≤ c && c ≤ 'f') || ('A' ≤ c && c ≤ 'F')

/-- Success condition of Python `bytes.fromhex`: pairs of hex digits, with
spaces allowed between bytes only. -/
def bytesFromHexOk : List Char → Bool
  | [] => true
  | ' ' :: rest => bytesFromHexOk rest
  | c1 :: c2 :: rest => isHexDigitC c1 && isHexDigitC c2 && bytesFromHexOk rest
  | [_] => false

/-- One iteration body of the `to_assets` loop, for a non-zero quantity:
splits the unit at 56 characters into `policy_id`/`asset_name_str`,
validates a non-empty `policy_id` as hex (`bytes.fromhex`), re-raising a
hex failure as `ValueError(f"Invalid policy_id in unit: {unit}")`. The
`AssetName` wrapper of `pycardano` is external and embedded as the bare
string. -/
def toAssetsEntry (unit : String) (quantity : Int) :
    Except PyError (String × String × Int) :=
  if unit = "lovelace" then .ok ("", "", quantity)
  else
    let cs := unit.toList
    let policy_id := if 56 ≤ cs.length then String.mk (cs.take 56) else ""
    let asset_name_str := if 56 < cs.length then String.mk (cs.drop 56) else ""
    if policy_id ≠ "" ∧ bytesFromHexOk policy_id.toList = false then
      .error (.valueError ("Invalid policy_id in unit: " ++ unit))
    else .ok (policy_id, asset_name_str, quantity)

/-- The loop of `to_assets`: `if quantity == 0: continue`, then the entry
conversion, appending `(policy_id, asset_name, quantity)` in order. -/
def toAssetsLoop : List (String × Int) → Except PyError (List AssetTriple)
  | [] => .ok []
  | (unit, quantity) :: rest =>
    if quantity = 0 then toAssetsLoop rest
    else
      match toAssetsEntry unit quantity with
      | .error e => .error e
      | .ok entry =>
        match toAssetsLoop rest with
        | .error e => .error e
        | .ok l => .ok (entry :: l)

/-- `to_assets` (`src/hydrano/types/hydra_assets.py`). -/
def to_assets (m : List (String × Int)) : Except PyError (List AssetTriple) :=
  toAssetsLoop m

/-- Digit accumulation of Python `int(str)` after the first digit:
underscores are allowed only between digits. -/
def pyDigitsGo (acc : Nat) : List Char → Option Nat
  | [] => some acc
  | '_' :: c :: rest =>
    if c.isDigit then pyDigitsGo (acc * 10 + (c.toNat - 48)) rest else none
  | ['_'] => none
  | c :: rest =>
    if c.isDigit then pyDigitsGo (acc * 10 + (c.toNat - 48)) rest else none

/-- Nonempty digit run of Python `int(str)`, must start with a digit. -/
def pyDigits : List Char → Option Nat
  | [] => none
  | c :: rest => if c.isDigit then pyDigitsGo (c.toNat - 48) rest else none

/-- Sign handling of Python `int(str)`. -/
def pyIntOfChars : List Char → Option Int
  | '+' :: rest => (pyDigits rest).map Int.ofNat
  | '-' :: rest => (pyDigits rest).map (fun n => -(n : Int))
  | l => (pyDigits l).map Int.ofNat

/-- ASCII whitespace stripped by Python `int(str)`. -/
def isPyWhitespace (c : Char) : Bool :=
  c = ' ' || c = '\t' || c = '\n' || c = '\r' || c = '\x0b' || c = '\x0c'

/-- Python `s.strip()` restricted to ASCII whitespace. -/
def pyStrip (l : List Char) : List Char :=
  ((l.dropWhile isPyWhitespace).reverse.dropWhile isPyWhitespace).reverse

/-- Python `int(s)` on a decimal string: surrounding whitespace stripped,
optional sign, decimal digits with underscore separators; `None` when the
conversion raises `ValueError`. -/
def pyInt (s : String) : Option Int :=
  pyIntOfChars (pyStrip s.toList)

/-- Accumulator pass of Python `s.split("#")`: `cur` holds the current
field, reversed. -/
def pySplitHashAux (cur : List Char) : List Char → List (List Char)
  | [] => [cur.reverse]
  | '#' :: rest => cur.reverse :: pySplitHashAux [] rest
  | c :: rest => pySplitHashAux (c :: cur) rest

/-- Python `s.split("#")`: fields between the `'#'` separators, empty
fields included (`"".split("#") == [""]`). -/
def pySplitHash (s : String) : List String :=
  (pySplitHashAux [] s.toList).map String.mk

/-- The reference parse performed by `to_utxo`:
`tx_hash, output_index = tx_id.split("#"); output_index =
int(output_index)` — succeeds exactly when the split yields two parts and
the second converts to an integer. -/
def parseTxId (tx_id : String) : Option (String × Int) :=
  match pySplitHash tx_id with
  | [h, i] => (pyInt i).map (fun n => (h, n))
  | _ => none

/-- `HydraReferenceScript`: its `script` member is the text-envelope JSON
object (looked up at key `"cborHex"` by `to_utxo`). -/
structure HydraReferenceScript where
  script : List (String × Json)

/-- The `HydraUTxO` dataclass (`src/hydrano/types/hydra_utxos.py`). The
Python fields are dynamically typed; JSON-sourced fields are embedded as
`Option Json` (`none` standing for Python `None`), while `value` keeps
the `HydraAssets` dict shape that `to_assets` iterates. -/
structure HydraUTxO where
  address : Option Json
  value : List (String × Int)
  datum : Option Json
  datumhash : Option Json
  inline_datum : Option Json
  inline_datum_raw : Option Json
  inline_datumhash : Option Json
  reference_script : Option HydraReferenceScript

/-- `pycardano.TransactionInput` as constructed by `to_utxo`. -/
structure TransactionInput where
  transaction_id : String
  index : Int
  deriving DecidableEq, Repr

/-- `pycardano.TransactionOutput` as constructed by `to_utxo`; the
`amount` is the `to_assets` triple list. -/
structure TransactionOutput where
  address : Option Json
  amount : List AssetTriple
  datum_hash : Option Json
  datum : Option Json
  script : Option Json

/-- `pycardano.UTxO`. -/
structure UTxO where
  input : TransactionInput
  output : TransactionOutput

/-- Python truthiness of a value that is either `None` or a JSON value. -/
def pyTruthy : Option Json → Bool
  | none => false
  | some .null => false
  | some (.str s) => s ≠ ""
  | some (.num n) => n ≠ 0
  | some (.obj []) => false
  | some (.obj (_ :: _)) => true
  | some (.arr []) => false
  | some (.arr (_ :: _)) => true

/-- `to_utxo` (`src/hydrano/types/hydra_utxos.py`): the reference parse
first (its `ValueError`/`TypeError` is re-raised as
`ValueError("Invalid TxId Format")`), then
`script_reference = hydra_utxo.reference_script.script["cborHex"] if
hydra_utxo.reference_script else None` (a missing key raises `KeyError`),
then the `UTxO` construction, whose `amount=to_assets(hydra_utxo.value)`
can itself raise. `datum_hash` is `inline_datum` when `inline_datumhash`
is truthy, else `None`; `datum` is `inline_datum_raw`. -/
def to_utxo (hydra_utxo : HydraUTxO) (tx_id : String) : Except PyError UTxO :=
  match parseTxId tx_id with
  | none => .error (.valueError "Invalid TxId Format")
  | some (tx_hash, output_index) =>
    match (match hydra_utxo.reference_script with
           | some r =>
             match lookupA r.script "cborHex" with
             | some v => Except.ok (some v)
             | none => Except.error (PyError.keyError "cborHex")
           | none => Except.ok none) with
    | .error e => .error e
    | .ok script_reference =>
      match to_assets hydra_utxo.value with
      | .error e => .error e
      | .ok amount =>
        .ok { input := { transaction_id := tx_hash, index := output_index },
              output := { address := hydra_utxo.address,
                          amount := amount,
                          datum_hash := if pyTruthy hydra_utxo.inline_datumhash
                                        then hydra_utxo.inline_datum else none,
                          datum := hydra_utxo.inline_datum_raw,
                          script := script_reference } }

/-- Python `data.get(k)` on a decoded JSON object: `None` both when the
key is missing and when it maps to JSON `null`; a non-object raises
`AttributeError`. -/
def pyGet (j : Json) (k : String) : Except PyError (Option Json) :=
  match j with
  | .obj fields =>
    match lookupA fields k with
    | some .null => .ok none
    | some v => .ok (some v)
    | none => .ok none
  | _ => .error .attributeError

/-- Extraction of the `HydraAssets` dict from the JSON `value` member.
In Python the decoded JSON dict flows into `HydraUTxO.value` untyped and
its shape is only checked when `to_assets` iterates it; the typed
embedding performs that dict-of-integers check here instead. -/
def jsonToAssets : Option Json → Except PyError (List (String × Int))
  | some (.obj fields) =>
    fields.mapM (fun kv =>
      match kv.2 with
      | .num n => Except.ok (kv.1, n)
      | _ => Except.error PyError.typeError)
  | _ => .error .attributeError

/-- One loop iteration of `HydraProvider.subscribe_snapshot_utxo`: builds
the `HydraUTxO` from the entry's JSON via `data.get(...)` (the constructor
call passes no `reference_script`, leaving it `None`) and converts it with
`to_utxo(hydra_utxo, ref)`. -/
def snapshotEntryToUtxo (ref : String) (data : Json) : Except PyError UTxO :=
  match pyGet data "address" with
  | .error e => .error e
  | .ok address =>
    match pyGet data "datum", pyGet data "datumhash", pyGet data "inlineDatum",
          pyGet data "inlineDatumRaw", pyGet data "inlineDatumhash" with
    | .ok datum, .ok datumhash, .ok inline_datum, .ok inline_datum_raw,
      .ok inline_datumhash =>
      match jsonToAssets (match pyGet data "value" with
                          | .ok v => v
                          | .error _ => none) with
      | .error e => .error e
      | .ok value =>
        to_utxo { address := address, value := value, datum := datum,
                  datumhash := datumhash, inline_datum := inline_datum,
                  inline_datum_raw := inline_datum_raw,
                  inline_datumhash := inline_datumhash,
                  reference_script := none } ref
    | _, _, _, _, _ => .error .attributeError

/-- `HydraProvider.subscribe_snapshot_utxo`: `response = self.get
("snapshot/utxo")`, then one `to_utxo` per `response.items()` entry, in
order (a non-object response would fail the `.items()` iteration). -/
def subscribe_snapshot_utxo (resp : HttpResponse) : Except PyError (List UTxO) :=
  match get resp with
  | .error e => .error e
  | .ok body =>
    match body with
    | .obj fields =>
      fields.mapM (fun entry => snapshotEntryToUtxo entry.1 entry.2)
    | _ => .error .attributeError

/-- Whether an `Except` computation raised. -/
def isErr {α : Type} : Except PyError α → Bool
  | .error _ => true
  | .ok _ => false

/-- Total quantity contributed to one unit by a triple list, the sum the
`hydra_assets` loop accumulates for that unit. -/
def sumUnit (u : String) : List AssetTriple → Int
  | [] => 0
  | (p, n, q) :: rest => (if unitOf p n = u then q else 0) + sumUnit u rest

/-- Whether some triple of the list contributes to the given unit. -/
def hasUnit (u : String) : List AssetTriple → Bool
  | [] => false
  | (p, n, _) :: rest => if unitOf p n = u then true else hasUnit u rest

/-- A `HydraUTxO` with every optional field absent and an empty value. -/
def emptyHU : HydraUTxO :=
  { address := none, value := [], datum := none, datumhash := none,
    inline_datum := none, inline_datum_raw := none, inline_datumhash := none,
    reference_script := none }

/-- A `HydraUTxO` whose value dictionary holds one well-formed-looking but
non-hex 56-character unit — `to_assets` rejects it with `ValueError`. -/
def badValueHU : HydraUTxO :=
  { address := none, value := [(String.mk (List.replicate 56 'z'), 1)],
    datum := none, datumhash := none, inline_datum := none,
    inline_datum_raw := none, inline_datumhash := none,
    reference_script := none }

/-- A registered `submitTx` handler never changes a completed future:
`set_result`/`set_exception` on it raise `InvalidStateError`. -/
theorem submitTxHandler_completed (tx : String) (m : Msg) (fut : FutureState)
    (h : fut ≠ .pending) : submitTxHandler tx m fut = fut := by
  cases fut <;> simp_all [submitTxHandler]

/-- Processing inbound frames never touches the subscriber list. -/
theorem foldl_handler_subscribers (tx : String) (events : List Msg) :
    ∀ st : SubmitState,
      (events.foldl (fun st m => { st with fut := submitTxHandler tx m st.fut })
        st).subscribers = st.subscribers := by
  induction events with
  | nil => intro st; rfl
  | cons m rest ih => intro st; simpa using ih _

/-- Once the future is completed, further frames leave it unchanged. -/
theorem foldl_handler_completed (tx : String) (more : List Msg) :
    ∀ st : SubmitState, st.fut ≠ .pending →
      (more.foldl (fun st m => { st with fut := submitTxHandler tx m st.fut })
        st).fut = st.fut := by
  induction more with
  | nil => intro st _; rfl
  | cons m rest ih =>
    intro st hst
    have hm : submitTxHandler tx m st.fut = st.fut := submitTxHandler_completed tx m st.fut hst
    simpa [hm] using ih { st with fut := submitTxHandler tx m st.fut } (by simpa [hm])

/-- C1: for a transaction submitted via `submitTx` with CBOR payload `P`,
an inbound `TxValid` event whose `transaction.cborHex` equals `P` resolves
`submitTx` to that event's `txId`; an inbound `TxInvalid` event whose
`transaction.cborHex` equals `P` makes `submitTx` fail with the event's
`validationError`; and an inbound event whose payload does not equal `P`
(or carries none) resolves neither outcome. -/
theorem C1_submitTx_resolution (P h : String) (m : Msg) :
    (∀ t, m.tag = "TxValid" → m.transaction = some t → t.cborHex = P →
      (submitTxRun P h [m]).fut = .resolved t.txId) ∧
    (∀ t e, m.tag = "TxInvalid" → m.transaction = some t → t.cborHex = P →
      m.validationError = some e → (submitTxRun P h [m]).fut = .failed e) ∧
    (∀ t, m.transaction = some t → t.cborHex ≠ P →
      (submitTxRun P h [m]).fut = .pending) ∧
    (m.transaction = none → (submitTxRun P h [m]).fut = .pending) := by
  have hrun : (submitTxRun P h [m]).fut = submitTxHandler P m .pending := rfl
  refine ⟨?_, ?_, ?_, ?_⟩
  · intro t h1 h2 h3
    rw [hrun]
    simp [submitTxHandler, h1, h2, h3]
  · intro t e h1 h2 h3 h4
    rw [hrun]
    simp [submitTxHandler, h1, h2, h3, h4, pyStr]
  · intro t h2 h3
    rw [hrun]
    by_cases h1 : m.tag = "TxValid"
    · simp [submitTxHandler, h1, h2, h3]
    · by_cases h1' : m.tag = "TxInvalid" <;> simp [submitTxHandler, h1, h1', h2, h3]
  · intro h2
    rw [hrun]
    by_cases h1 : m.tag = "TxValid"
    · simp [submitTxHandler, h1, h2]
    · by_cases h1' : m.tag = "TxInvalid" <;> simp [submitTxHandler, h1, h1', h2]

/-- Witness for C1 at concrete frames: a matching `TxValid` resolves to
its txId, a matching `TxInvalid` fails with its validation error, and a
non-matching payload leaves the call pending. -/
theorem C1_submitTx_resolution_witness :
    (submitTxRun "ab" "h0" [⟨"TxValid", some ⟨"ab", "tid"⟩, none⟩]).fut =
      .resolved "tid" ∧
    (submitTxRun "ab" "h0" [⟨"TxInvalid", some ⟨"ab", "t2"⟩, some "boom"⟩]).fut =
      .failed "boom" ∧
    (submitTxRun "ab" "h0" [⟨"TxValid", some ⟨"cd", "tid"⟩, none⟩]).fut =
      .pending :=
  ⟨(C1_submitTx_resolution "ab" "h0" _).1 ⟨"ab", "tid"⟩ rfl rfl rfl,
   (C1_submitTx_resolution "ab" "h0" _).2.1 ⟨"ab", "t2"⟩ "boom" rfl rfl rfl rfl,
   (C1_submitTx_resolution "ab" "h0" _).2.2.1 ⟨"cd", "tid"⟩ rfl (by decide)⟩

/-- Counterexample to C2: a `submitTx` call whose future is resolved by a
matching `TxValid` frame — i.e. a completed call — still has its one-shot
subscriber registered on the message channel: nothing in `submitTx`
deregisters it on any exit path. -/
theorem C2_counterexample :
    (submitTxRun "ab" "h0" [⟨"TxValid", some ⟨"ab", "tid"⟩, none⟩]).fut =
      .resolved "tid" ∧
    (submitTxRun "ab" "h0"
      [⟨"TxValid", some ⟨"ab", "tid"⟩, none⟩]).subscribers ≠ [] := by decide

/-- C2 amended: `submitTx` registers its one-shot subscriber but never
deregisters it — on every exit path the subscriber stays registered (the
subscriber list is still exactly the registered handler after any stream
of frames); the future itself is single-resolution, so frames arriving
after completion leave the outcome unchanged even though the subscriber
is still invoked. -/
theorem C2_subscriber_never_removed (tx h : String) (events more : List Msg) :
    (submitTxRun tx h events).subscribers = [h] ∧
    ((submitTxRun tx h events).fut ≠ .pending →
      (submitTxRun tx h (events ++ more)).fut = (submitTxRun tx h events).fut) := by
  constructor
  · exact foldl_handler_subscribers tx events _
  · intro hdone
    have happ : submitTxRun tx h (events ++ more) =
        more.foldl (fun st m => { st with fut := submitTxHandler tx m st.fut })
          (submitTxRun tx h events) := by
      simp [submitTxRun, List.foldl_append]
    rw [happ]
    exact foldl_handler_completed tx more (submitTxRun tx h events) hdone

/-- Witness for C2 amended at a concrete resolved call. -/
theorem C2_subscriber_never_removed_witness :
    (submitTxRun "ab" "h0" [⟨"TxValid", some ⟨"ab", "tid"⟩, none⟩]).subscribers =
      ["h0"] ∧
    (submitTxRun "ab" "h0"
      ([⟨"TxValid", some ⟨"ab", "tid"⟩, none⟩] ++
       [⟨"TxValid", some ⟨"ab", "other"⟩, none⟩])).fut =
      (submitTxRun "ab" "h0" [⟨"TxValid", some ⟨"ab", "tid"⟩, none⟩]).fut :=
  ⟨(C2_subscriber_never_removed "ab" "h0"
      [⟨"TxValid", some ⟨"ab", "tid"⟩, none⟩]
      [⟨"TxValid", some ⟨"ab", "other"⟩, none⟩]).1,
   (C2_subscriber_never_removed "ab" "h0"
      [⟨"TxValid", some ⟨"ab", "tid"⟩, none⟩]
      [⟨"TxValid", some ⟨"ab", "other"⟩, none⟩]).2 (by decide)⟩

/-- When the transport never opens, the retry loop exhausts the 5-second
window and reports failure at elapsed second 5. -/
theorem sendLoop_all_false (conn : Nat → Bool) (h : ∀ t, conn t = false) :
    ∀ t, t ≤ 5 → sendLoop conn t = .reportedFailure 5 := by
  intro t ht
  interval_cases t <;> simp [sendLoop, h]

/-- The retry loop delivers at the first second the transport is open,
provided that happens inside the window. -/
theorem sendLoop_first_open (conn : Nat → Bool) (k : Nat) (hk : k < 5)
    (hck : conn k = true) (hbefore : ∀ j, j < k → conn j = false) :
    ∀ d t, t + d = k → sendLoop conn t = .sent k := by
  intro d
  induction d with
  | zero =>
    intro t ht
    have : t = k := by omega
    subst this
    rw [sendLoop]
    simp [hk, hck]
  | succ d ih =>
    intro t ht
    have ht5 : t < 5 := by omega
    have hconn : conn t = false := hbefore t (by omega)
    rw [sendLoop]
    simp only [ht5, if_true, hconn, if_false]
    exact ih (t + 1) (by omega)

/-- C3: `send(payload)` delivers immediately when the transport is open;
when it is not, it retries once per second and succeeds at the first
second the transport is open within the 5-second window; when no
connection ever materializes it gives up at elapsed second 5, returning a
reported failure rather than raising or hanging. -/
theorem C3_send_bounded_retry (conn : Nat → Bool) :
    (conn 0 = true → send conn = .sent 0) ∧
    ((∀ t, conn t = false) → send conn = .reportedFailure 5) ∧
    (∀ k, k < 5 → conn k = true → (∀ j, j < k → conn j = false) →
      send conn = .sent k) := by
  refine ⟨fun h => by simp [send, h], fun h => ?_, fun k hk hck hb => ?_⟩
  · have h0 := h 0
    simp only [send, h0, if_false]
    exact sendLoop_all_false conn h 0 (by omega)
  · rcases Nat.eq_zero_or_pos k with rfl | hkpos
    · simp [send, hck]
    · have h0 : conn 0 = false := hb 0 hkpos
      simp only [send, h0, if_false]
      exact sendLoop_first_open conn k hk hck hb k 0 (by omega)

/-- Witness for C3: an always-open transport sends immediately, a
never-open one reports failure at second 5, one opening at second 3
delivers at second 3. -/
theorem C3_send_bounded_retry_witness :
    send (fun _ => true) = .sent 0 ∧
    send (fun _ => false) = .reportedFailure 5 ∧
    send (fun t => decide (t = 3)) = .sent 3 :=
  ⟨(C3_send_bounded_retry _).1 rfl,
   (C3_send_bounded_retry _).2.1 (fun _ => rfl),
   (C3_send_bounded_retry _).2.2 3 (by decide) (by decide)
     (fun j hj => by interval_cases j <;> rfl)⟩

/-- Counterexample to C4: the Session's `connect` is not a no-op outside
`Disconnected`/`Idle` — on a session whose status is `"CONNECTED"` it
still mutates the state (it creates a fresh transport and resets the
status to `"CONNECTING"`): `HydraConnection.connect` has no status guard. -/
theorem C4_counterexample :
    HydraConnection.connect
      { websocket := some 0, status := "CONNECTED", connected := true,
        nextTransportId := 1, opened := 1 } ≠
      { websocket := some 0, status := "CONNECTED", connected := true,
        nextTransportId := 1, opened := 1 } := by decide

/-- C4 amended: the Provider's `connect` is a no-op unless its status is
`DISCONNECTED`, so two successive Provider-level `connect()` calls open at
most one transport; the Session's `connect`, however, is unguarded and
always opens exactly one new transport, whatever the current status. -/
theorem C4_connect_idempotence (p : HPState) (s : HCState) :
    (p.status ≠ HydraStatus.DISCONNECTED → HydraProvider.connect p = p) ∧
    (HydraProvider.connect (HydraProvider.connect p)).connection.opened ≤
      p.connection.opened + 1 ∧
    (HydraConnection.connect s).opened = s.opened + 1 := by
  refine ⟨fun h => by simp [HydraProvider.connect, h], ?_, rfl⟩
  by_cases h : p.status = HydraStatus.DISCONNECTED
  · simp [HydraProvider.connect, h, HydraConnection.connect]
  · simp [HydraProvider.connect, h]

/-- Witness for C4 amended: a connected Provider ignores a second
`connect`; a fresh Provider connected twice opens at most one transport. -/
theorem C4_connect_idempotence_witness :
    HydraProvider.connect
      { status := HydraStatus.CONNECTED, connection := HCState.init } =
      { status := HydraStatus.CONNECTED, connection := HCState.init } ∧
    (HydraProvider.connect (HydraProvider.connect HPState.init)).connection.opened ≤
      HPState.init.connection.opened + 1 :=
  ⟨(C4_connect_idempotence
      { status := HydraStatus.CONNECTED, connection := HCState.init }
      HCState.init).1 (by decide),
   (C4_connect_idempotence HPState.init HCState.init).2.1⟩

/-- Every status the modelled classifier yields is a nonempty string, so
Python's truthiness test in `process_status` accepts it. -/
theorem hydra_status_ne_empty (m : Msg) (s : String)
    (h : hydra_status m = some s) : s ≠ "" := by
  unfold hydra_status at h
  split_ifs at h <;> injection h with h
  all_goals subst h; decide

/-- C5: for every inbound frame that is delivered to generic message
subscribers and also induces a status change, `_on_message` publishes on
the message channel strictly before the status channel: the emitted event
list is exactly `onmessage` then `onstatuschange`. -/
theorem C5_message_before_status (st : String) (m : Msg) (s : String)
    (h : hydra_status m = some s) :
    (on_message st (some m)).2 = [.onmessage m, .onstatuschange s] := by
  have hne := hydra_status_ne_empty m s h
  simp [on_message, process_status, h, hne]

/-- Witness for C5 at a concrete status-bearing frame. -/
theorem C5_message_before_status_witness :
    (on_message "IDLE" (some ⟨"HeadIsOpen", none, none⟩)).2 =
      [.onmessage ⟨"HeadIsOpen", none, none⟩, .onstatuschange "OPEN"] :=
  C5_message_before_status "IDLE" ⟨"HeadIsOpen", none, none⟩ "OPEN" rfl

/-- C8: `process_status` leaves the Session's status unchanged and
publishes nothing when the classification yields no status, and updates
the status to the classification and publishes it on the status channel
when it yields one. -/
theorem C8_process_status_contract (st : String) (m : Msg) :
    (hydra_status m = none → process_status st m = (st, [])) ∧
    (∀ s, hydra_status m = some s →
      process_status st m = (s, [.onstatuschange s])) := by
  constructor
  · intro h; simp [process_status, h]
  · intro s h
    have hne := hydra_status_ne_empty m s h
    simp [process_status, h, hne]

/-- Witness for C8: an unrecognized tag leaves the status unchanged, a
recognized one updates and publishes it. -/
theorem C8_process_status_contract_witness :
    process_status "IDLE" ⟨"Greetings", none, none⟩ = ("IDLE", []) ∧
    process_status "IDLE" ⟨"HeadIsOpen", none, none⟩ =
      ("OPEN", [.onstatuschange "OPEN"]) :=
  ⟨(C8_process_status_contract "IDLE" ⟨"Greetings", none, none⟩).1 rfl,
   (C8_process_status_contract "IDLE" ⟨"HeadIsOpen", none, none⟩).2 "OPEN" rfl⟩

/-- C7: `get(path)` returns the parsed JSON body exactly on HTTP 200/202;
any other status raises a `RequestFailure` carrying the response body, and
a network-level failure raises a `RequestFailure` with no body; in
particular `snapshot/utxo` answered 200 with `{}` yields an empty UTxO
collection, and a 500 with a `SomeError` body yields a `RequestFailure`
carrying that body. -/
theorem C7_get_rest_contract :
    (∀ st body, st = 200 ∨ st = 202 → get (.response st body) = .ok body) ∧
    (∀ st body, ¬(st = 200 ∨ st = 202) →
      get (.response st body) = .error (.requestFailure (some body))) ∧
    get .networkError = .error (.requestFailure none) ∧
    subscribe_snapshot_utxo (.response 200 (.obj [])) = .ok [] ∧
    get (.response 500 (.obj [("tag", Json.str "SomeError")])) =
      .error (.requestFailure (some (.obj [("tag", Json.str "SomeError")]))) := by
  exact ⟨fun st body hyp => by simp [get, hyp],
         fun st body hyp => by simp [get, hyp, parse_error],
         rfl, rfl, rfl⟩

/-- Witness for C7 at the example statuses. -/
theorem C7_get_rest_contract_witness :
    get (.response 200 (Json.obj [])) = .ok (Json.obj []) ∧
    get (.response 500 (Json.obj [])) =
      .error (.requestFailure (some (Json.obj []))) :=
  ⟨C7_get_rest_contract.1 200 (Json.obj []) (Or.inl rfl),
   C7_get_rest_contract.2.1 500 (Json.obj []) (by decide)⟩

/-- A character list in which `"http"` does not occur is left unchanged by
`str.replace("http", "ws")`. -/
theorem pyReplaceHttpWs_of_not_contains :
    ∀ l, containsHttp l = false → pyReplaceHttpWs l = l := by
  intro l
  induction l with
  | nil => intro _; rfl
  | cons c rest ih =>
    intro h
    rw [containsHttp.eq_def] at h
    rw [pyReplaceHttpWs.eq_def]
    split at h <;> simp_all

/-- Characters of a concatenation. -/
theorem toList_append' (a b : String) : (a ++ b).toList = a.toList ++ b.toList := by
  cases a; cases b; rfl

/-- Characters of `String.mk`. -/
theorem toList_mk (l : List Char) : (String.mk l).toList = l := rfl

/-- Strings with equal character lists are equal. -/
theorem eq_of_toList_eq {a b : String} (h : a.toList = b.toList) : a = b := by
  cases a; cases b
  exact congrArg String.mk h

/-- Counterexample to C6: the code derives the duplex URL with the global
substring replacement `http_url.replace("http", "ws")`, not by replacing
the HTTP scheme — a base URL whose host also contains `"http"` is
rewritten inside the host as well. -/
theorem C6_counterexample :
    websocketUrl "http://httphost:4001" true none none ≠
      specSchemeReplace "http://httphost:4001" ++ "/?history=yes" := by decide

/-- C6 amended: the derived duplex URL replaces every occurrence of the
substring `"http"` by `"ws"`; when the base URL is `"http"` followed by a
remainder containing no further `"http"`, this coincides with replacing
the scheme, and the URL is that prefix-rewritten base followed by
`/?history={yes|no}` and `&address=<addr>` exactly when a nonempty
address was configured. -/
theorem C6_websocket_url (r : String) (hist : Bool) (address : Option String)
    (hno : containsHttp r.toList = false) :
    websocketUrl ("http" ++ r) hist address none =
      "ws" ++ r ++ "/?history=" ++ (if hist then "yes" else "no") ++
        (match address with
         | some a => if a = "" then "" else "&address=" ++ a
         | none => "") := by
  apply eq_of_toList_eq
  have hr : pyReplaceHttpWs r.data = r.data :=
    pyReplaceHttpWs_of_not_contains r.toList hno
  rcases address with _ | a
  · cases hist <;>
      simp [websocketUrl, toList_append', toList_mk, pyReplaceHttpWs, hr]
  · by_cases ha : a = "" <;> cases hist <;>
      simp [websocketUrl, toList_append', toList_mk, pyReplaceHttpWs, hr, ha]

/-- Witness for C6 amended: instantiating the remainder to `"://node:4001"`
reproduces the spec's two example URLs. -/
theorem C6_websocket_url_witness :
    containsHttp "://node:4001".toList = false ∧
    websocketUrl ("http" ++ "://node:4001") true none none =
      "ws" ++ "://node:4001" ++ "/?history=" ++ (if true then "yes" else "no") ++ "" ∧
    websocketUrl ("http" ++ "://node:4001") true (some "addr1") none =
      "ws" ++ "://node:4001" ++ "/?history=" ++ (if true then "yes" else "no") ++
        (if ("addr1" : String) = "" then "" else "&address=" ++ "addr1") :=
  ⟨by decide,
   C6_websocket_url "://node:4001" true none (by decide),
   C6_websocket_url "://node:4001" true (some "addr1") (by decide)⟩

/-- Counterexample to C9: with a value dictionary holding a non-hex
56-character unit, `to_utxo` raises a `ValueError` (from `to_assets`) even
though the transaction-output reference `"aa#0"` parses — so parsing
`hash#index` is not the only way `to_utxo` can raise, and a parsing
`tx_id` does not guarantee a returned UTxO. -/
theorem C9_counterexample :
    parseTxId "aa#0" = some ("aa", 0) ∧
    ∀ u, to_utxo badValueHU "aa#0" ≠ .ok u := by
  refine ⟨rfl, fun u h => ?_⟩
  have hv : to_utxo badValueHU "aa#0" =
      .error (.valueError ("Invalid policy_id in unit: " ++
        String.mk (List.replicate 56 'z'))) := rfl
  rw [hv] at h
  exact Except.noConfusion h

/-- Evaluation of `to_utxo` once the reference string has parsed. -/
theorem to_utxo_parsed (hu : HydraUTxO) (tx_id : String) (h : String) (idx : Int)
    (hp : parseTxId tx_id = some (h, idx)) :
    to_utxo hu tx_id =
      match (match hu.reference_script with
             | some r => match lookupA r.script "cborHex" with
                         | some v => Except.ok (some v)
                         | none => Except.error (PyError.keyError "cborHex")
             | none => Except.ok none) with
      | .error e => .error e
      | .ok script_reference =>
        match to_assets hu.value with
        | .error e => .error e
        | .ok amount =>
          .ok { input := { transaction_id := h, index := idx },
                output := { address := hu.address, amount := amount,
                            datum_hash := if pyTruthy hu.inline_datumhash then
                              hu.inline_datum else none,
                            datum := hu.inline_datum_raw,
                            script := script_reference } } := by
  unfold to_utxo
  rw [hp]

/-- C9 amended: `to_utxo` raises the `InvalidReference` failure
(`ValueError("Invalid TxId Format")`) exactly when `tx_id` does not parse
as `hash#index` with an integer index; when it does parse, the remaining
field conversions can still raise (`to_assets` on a malformed unit, a
reference script without `cborHex`), but every UTxO `to_utxo` returns
holds the parsed hash and index in its input, and one is returned whenever
those conversions succeed. -/
theorem C9_to_utxo_reference_parse :
    (∀ hu tx_id, parseTxId tx_id = none →
      to_utxo hu tx_id = .error (.valueError "Invalid TxId Format")) ∧
    (∀ hu tx_id h idx u, parseTxId tx_id = some (h, idx) →
      to_utxo hu tx_id = .ok u →
      u.input.transaction_id = h ∧ u.input.index = idx) ∧
    (∀ hu tx_id h idx amt, parseTxId tx_id = some (h, idx) →
      hu.reference_script = none → to_assets hu.value = .ok amt →
      to_utxo hu tx_id =
        .ok { input := { transaction_id := h, index := idx },
              output := { address := hu.address, amount := amt,
                          datum_hash := if pyTruthy hu.inline_datumhash then
                            hu.inline_datum else none,
                          datum := hu.inline_datum_raw, script := none } }) := by
  refine ⟨?_, ?_, ?_⟩
  · intro hu tx_id hp
    simp [to_utxo, hp]
  · intro hu tx_id h idx u hp hok
    rw [to_utxo_parsed hu tx_id h idx hp] at hok
    split at hok
    · exact Except.noConfusion hok
    · split at hok
      · exact Except.noConfusion hok
      · injection hok with hok
        subst hok
        exact ⟨rfl, rfl⟩
  · intro hu tx_id h idx amt hp href hassets
    rw [to_utxo_parsed hu tx_id h idx hp, href, hassets]

/-- Witness for C9 amended: a reference without `#` raises the
`InvalidReference` failure, and `"aa#0"` on a trivial `HydraUTxO` returns
the UTxO with hash `"aa"` and index `0`. -/
theorem C9_to_utxo_reference_parse_witness :
    to_utxo emptyHU "aa" = .error (.valueError "Invalid TxId Format") ∧
    to_utxo emptyHU "aa#0" =
      .ok { input := { transaction_id := "aa", index := 0 },
            output := { address := emptyHU.address, amount := [],
                        datum_hash := if pyTruthy emptyHU.inline_datumhash then
                          emptyHU.inline_datum else none,
                        datum := emptyHU.inline_datum_raw, script := none } } :=
  ⟨C9_to_utxo_reference_parse.1 emptyHU "aa" rfl,
   C9_to_utxo_reference_parse.2.2 emptyHU "aa#0" "aa" 0 [] rfl rfl rfl⟩

/-- Lookup after a dict update: the updated key reads back the new value,
all other keys are untouched. -/
theorem lookupA_updateA {α : Type} (m : List (String × α)) (k u : String) (v : α) :
    lookupA (updateA m k v) u = if k = u then some v else lookupA m u := by
  induction m with
  | nil => by_cases h : k = u <;> simp [updateA, lookupA, h]
  | cons kv rest ih =>
    obtain ⟨k', v'⟩ := kv
    by_cases hk : k' = k
    · subst hk
      by_cases hu : k' = u <;> simp [updateA, lookupA, hu]
    · by_cases hu : k' = u
      · subst hu
        have : ¬k = k' := fun hc => hk hc.symm
        simp [updateA, lookupA, hk, this]
      · simp [updateA, lookupA, hk, hu, ih]

/-- A key is absent from a dict exactly when lookup yields nothing. -/
theorem lookupA_eq_none {α : Type} (m : List (String × α)) (k : String) :
    lookupA m k = none ↔ k ∉ m.map Prod.fst := by
  induction m with
  | nil => simp [lookupA]
  | cons kv rest ih =>
    obtain ⟨k', v'⟩ := kv
    by_cases h : k' = k
    · subst h
      simp [lookupA]
    · have : ¬k = k' := fun hc => h hc.symm
      simp [lookupA, h, this, ih]

/-- The key set after a dict update: unchanged when the key was present,
extended by the key otherwise (Python dicts append new keys). -/
theorem map_fst_updateA {α : Type} (m : List (String × α)) (k : String) (v : α) :
    (updateA m k v).map Prod.fst =
      if k ∈ m.map Prod.fst then m.map Prod.fst else m.map Prod.fst ++ [k] := by
  induction m with
  | nil => simp [updateA]
  | cons kv rest ih =>
    obtain ⟨k', v'⟩ := kv
    by_cases hk : k' = k
    · subst hk
      simp [updateA]
    · have : ¬k = k' := fun hc => hk hc.symm
      by_cases hmem : k ∈ rest.map Prod.fst <;>
        simp [updateA, hk, this, hmem, ih]

/-- Dict updates preserve key uniqueness. -/
theorem nodup_updateA {α : Type} (m : List (String × α)) (k : String) (v : α)
    (h : (m.map Prod.fst).Nodup) : ((updateA m k v).map Prod.fst).Nodup := by
  rw [map_fst_updateA]
  split
  · exact h
  · next hk => simp [List.nodup_append, h, hk]

/-- The `hydra_assets` loop preserves key uniqueness of the accumulator. -/
theorem nodup_hydraAssetsLoop (l : List AssetTriple) :
    ∀ acc m, (acc.map Prod.fst).Nodup → hydraAssetsLoop acc l = .ok m →
      (m.map Prod.fst).Nodup := by
  induction l with
  | nil =>
    intro acc m h hok
    injection hok with hok
    subst hok
    exact h
  | cons e rest ih =>
    intro acc m h hok
    obtain ⟨p, n, q⟩ := e
    simp only [hydraAssetsLoop] at hok
    split at hok
    · exact Except.noConfusion hok
    · exact ih _ m (nodup_updateA acc (unitOf p n) _ h) hok

/-- The `hydra_assets` loop raises exactly when some quantity is negative. -/
theorem hydraAssetsLoop_isErr (l : List AssetTriple) :
    ∀ acc, isErr (hydraAssetsLoop acc l) = true ↔ ∃ e ∈ l, e.2.2 < 0 := by
  induction l with
  | nil => intro acc; simp [hydraAssetsLoop, isErr]
  | cons e rest ih =>
    intro acc
    obtain ⟨p, n, q⟩ := e
    by_cases hq : q < 0
    · constructor
      · intro _
        exact ⟨(p, n, q), List.mem_cons_self _ _, hq⟩
      · intro _
        simp [hydraAssetsLoop, hq, isErr]
    · simp only [hydraAssetsLoop, if_neg hq]
      rw [ih]
      constructor
      · rintro ⟨e, he, hlt⟩
        exact ⟨e, by simp [he], hlt⟩
      · rintro ⟨e, he, hlt⟩
        rcases List.mem_cons.mp he with rfl | hmem
        · exact absurd hlt hq
        · exact ⟨e, hmem, hlt⟩

/-- A unit no triple contributes to has total zero. -/
theorem sumUnit_eq_zero_of_not_hasUnit (u : String) (l : List AssetTriple)
    (h : hasUnit u l = false) : sumUnit u l = 0 := by
  induction l with
  | nil => rfl
  | cons e rest ih =>
    obtain ⟨p, n, q⟩ := e
    by_cases hk : unitOf p n = u
    · simp [hasUnit, hk] at h
    · simp only [hasUnit, if_neg hk] at h
      simp [sumUnit, hk, ih h]

/-- What lookup yields after the `hydra_assets` accumulation loop: nothing
for keys absent from the accumulator that no triple contributes to, and
the accumulated base value plus the unit's total otherwise. -/
theorem hydraAssetsLoop_lookup (l : List AssetTriple) :
    ∀ acc m, hydraAssetsLoop acc l = .ok m → ∀ u,
      lookupA m u =
        if lookupA acc u = none ∧ hasUnit u l = false then none
        else some (getDA acc u 0 + sumUnit u l) := by
  induction l with
  | nil =>
    intro acc m hok u
    injection hok with hok
    subst hok
    rcases hacc : lookupA acc u with _ | v
    · simp [hasUnit, sumUnit, hacc]
    · simp [hasUnit, sumUnit, hacc, getDA]
  | cons e rest ih =>
    intro acc m hok u
    obtain ⟨p, n, q⟩ := e
    simp only [hydraAssetsLoop] at hok
    split at hok
    · exact Except.noConfusion hok
    · set v := getDA acc (unitOf p n) 0 + q with hv
      have hrec := ih _ m hok u
      by_cases hk : unitOf p n = u
      · subst hk
        have hlook : lookupA (updateA acc (unitOf p n) v) (unitOf p n) = some v := by
          rw [lookupA_updateA]; simp
        have hget : getDA (updateA acc (unitOf p n) v) (unitOf p n) 0 = v := by
          unfold getDA
          rw [hlook]
          rfl
        rw [hrec, hlook, hget]
        simp [hasUnit, sumUnit, hv, add_assoc]
      · have hlook : lookupA (updateA acc (unitOf p n) v) u = lookupA acc u := by
          rw [lookupA_updateA]; simp [hk]
        have hget : getDA (updateA acc (unitOf p n) v) u 0 = getDA acc u 0 := by
          unfold getDA
          rw [hlook]
        rw [hrec, hlook, hget]
        simp [hasUnit, sumUnit, hk]

/-- Filtering a dict keeps lookups of absent keys absent. -/
theorem lookupA_filter_none {α : Type} (p : String × α → Bool)
    (m : List (String × α)) (u : String) (h : lookupA m u = none) :
    lookupA (m.filter p) u = none := by
  induction m with
  | nil => simp [lookupA]
  | cons kv rest ih =>
    obtain ⟨k', v'⟩ := kv
    by_cases hku : k' = u
    · simp [lookupA, hku] at h
    · simp only [lookupA, if_neg hku] at h
      by_cases hp : p (k', v') <;>
        simp [List.filter_cons, hp, lookupA, hku, ih h]

/-- On a dict with unique keys, lookup of a filtered dict keeps an entry
exactly when it passes the filter. -/
theorem lookupA_filter {α : Type} (p : String × α → Bool) (m : List (String × α))
    (u : String) (h : (m.map Prod.fst).Nodup) :
    lookupA (m.filter p) u =
      match lookupA m u with
      | some v => if p (u, v) then some v else none
      | none => none := by
  induction m with
  | nil => simp [lookupA]
  | cons kv rest ih =>
    obtain ⟨k', v'⟩ := kv
    have hnd : (rest.map Prod.fst).Nodup := (List.nodup_cons.mp h).2
    have hnin : k' ∉ rest.map Prod.fst := (List.nodup_cons.mp h).1
    by_cases hku : k' = u
    · subst hku
      by_cases hp : p (k', v')
      · simp [List.filter_cons, hp, lookupA]
      · have hrest : lookupA rest k' = none := (lookupA_eq_none rest k').mpr hnin
        simp [List.filter_cons, hp, lookupA,
              lookupA_filter_none p rest k' hrest]
    · by_cases hp : p (k', v') <;>
        simp [List.filter_cons, hp, lookupA, hku, ih hnd]

/-- Raising is error-preserving through `Except.map`. -/
theorem isErr_map {α β : Type} (f : α → β) (x : Except PyError α) :
    isErr (x.map f) = isErr x := by cases x <;> rfl

/-- `hydra_assets` raises exactly when some input quantity is negative. -/
theorem hydra_assets_isErr (assets : List AssetTriple) :
    isErr (hydra_assets assets) = true ↔ ∃ e ∈ assets, e.2.2 < 0 := by
  unfold hydra_assets
  rw [isErr_map]
  exact hydraAssetsLoop_isErr assets _

/-- The dictionary `hydra_assets` returns maps every unit to its total
quantity, with zero totals (and unused units) absent. -/
theorem hydra_assets_lookup (assets : List AssetTriple) (m : List (String × Int))
    (hok : hydra_assets assets = .ok m) (u : String) :
    lookupA m u =
      if sumUnit u assets = 0 then none else some (sumUnit u assets) := by
  unfold hydra_assets at hok
  rcases hloop : hydraAssetsLoop [("lovelace", 0)] assets with e | m0
  · rw [hloop] at hok
    exact Except.noConfusion hok
  · rw [hloop] at hok
    injection hok with hok
    subst hok
    have hnd : (m0.map Prod.fst).Nodup :=
      nodup_hydraAssetsLoop assets [("lovelace", 0)] m0 (by simp) hloop
    have hlk := hydraAssetsLoop_lookup assets [("lovelace", 0)] m0 hloop u
    have hbase : getDA ([("lovelace", 0)] : List (String × Int)) u 0 = 0 := by
      by_cases hu : "lovelace" = u <;> simp [getDA, lookupA, hu]
    rw [lookupA_filter _ m0 u hnd]
    rcases hcase : lookupA m0 u with _ | v
    · rw [hcase] at hlk
      split at hlk
      · next hc =>
        have hzero : sumUnit u assets = 0 :=
          sumUnit_eq_zero_of_not_hasUnit u assets hc.2
        simp [hzero]
      · exact Option.noConfusion hlk
    · rw [hcase] at hlk
      split at hlk
      · exact Option.noConfusion hlk
      · injection hlk with hlk
        subst hlk
        by_cases hs : sumUnit u assets = 0 <;> simp [hs] <;> omega

/-- A successful `toAssetsEntry` keeps the quantity it was given. -/
theorem toAssetsEntry_quantity (unit : String) (q : Int) (e : String × String × Int)
    (h : toAssetsEntry unit q = .ok e) : e.2.2 = q := by
  simp only [toAssetsEntry] at h
  split_ifs at h <;> (injection h with h; subst h; rfl)

/-- Every triple `to_assets` emits has a nonzero quantity: the zero
entries of the input dictionary are skipped. -/
theorem toAssetsLoop_nonzero (m : List (String × Int)) :
    ∀ l, toAssetsLoop m = .ok l → ∀ e ∈ l, e.2.2 ≠ 0 := by
  induction m with
  | nil =>
    intro l h e he
    injection h with h
    subst h
    simp at he
  | cons kv rest ih =>
    obtain ⟨unit, q⟩ := kv
    intro l h e he
    simp only [toAssetsLoop] at h
    split at h
    · exact ih l h e he
    · next hq =>
      split at h
      · exact Except.noConfusion h
      · next entry hentry =>
        split at h
        · exact Except.noConfusion h
        · next l' hrest =>
          injection h with h
          subst h
          rcases List.mem_cons.mp he with rfl | he'
          · rw [toAssetsEntry_quantity unit q e hentry]
            exact hq
          · exact ih l' hrest e he'

/-- C10: `hydra_assets` raises a `ValueError` exactly when some quantity
is negative; otherwise it returns a mapping summing the quantities of
equal units with zero totals removed; symmetrically `to_assets` omits
every zero-quantity entry of its input mapping. -/
theorem C10_assets_normalization :
    (∀ assets : List AssetTriple,
      (isErr (hydra_assets assets) = true ↔ ∃ e ∈ assets, e.2.2 < 0)) ∧
    (∀ assets m, hydra_assets assets = .ok m → ∀ u,
      lookupA m u =
        if sumUnit u assets = 0 then none else some (sumUnit u assets)) ∧
    (∀ m l, to_assets m = .ok l → ∀ e ∈ l, e.2.2 ≠ 0) :=
  ⟨hydra_assets_isErr, hydra_assets_lookup,
   fun m l h => toAssetsLoop_nonzero m l h⟩

/-- Witness for C10 at concrete inputs: a negative quantity raises;
summing and zero-removal hold on a simple mapping; a `to_assets` result
carries no zero quantity. -/
theorem C10_assets_normalization_witness :
    isErr (hydra_assets [("p", "n", (-1))]) = true ∧
    lookupA [("lovelace", 5)] "lovelace" =
      (if sumUnit "lovelace" [("", "", 5)] = 0 then none
       else some (sumUnit "lovelace" [("", "", 5)])) ∧
    ∀ e ∈ ([("", "", 5)] : List AssetTriple), e.2.2 ≠ 0 :=
  ⟨(C10_assets_normalization.1 [("p", "n", (-1))]).mpr
     ⟨("p", "n", (-1)), by simp, by decide⟩,
   C10_assets_normalization.2.1 [("", "", 5)] [("lovelace", 5)] rfl "lovelace",
   C10_assets_normalization.2.2 [("lovelace", 5)] [("", "", 5)] rfl⟩

end Hydrano
